import Mathlib

/-!
# Verification of the move-and-slide character controller core

Shallow embedding of `src/char_controller/move_and_slide.rs` (the
`MoveAndSlide` system param: `move_and_slide`, `cast_move`, `pull_back`,
`intersections`, `depenetrate`, `project_velocity`) together with theorems
checking the specification's claims about it.

Modelling conventions:

* `f32` scalars are modelled as exact rationals (`ℚ`); 2D vectors
  (`avian2d::math::Vector`, `bevy::math::Dir2`) as pairs `ℚ × ℚ`.
* The one arithmetic operation of the source that leaves `ℚ` is the
  Euclidean norm computed inside `Dir2::new_and_length`.  The embedding
  receives it as an explicit function parameter `ν : Vec2 → ℚ`; theorems
  whose truth depends on the norm constrain `ν` pointwise at the vectors
  the execution actually normalises (`ν w ≥ 0` and `ν w * ν w = w ⬝ w`),
  which a rational witness can satisfy exactly.  Theorems stated for all
  `ν` hold regardless of how the norm is computed.
* The geometry provider (`SpatialQueryPipeline::cast_shape` and the
  AABB/manifold enumeration driving `MoveAndSlide::intersections`) is an
  external collaborator; it is modelled as an oracle `Scene` supplying the
  shape-cast result and the list of deepest contact points per overlapping
  collider.  The shape, filter and collision layers are fixed for one call
  and are absorbed into the oracle.
* The `FnMut` per-contact callback of `move_and_slide` is modelled as a
  pure function from the hit data (including the in-flight position and
  velocity, which the Rust callback can mutate through `&mut`) to a
  result carrying the continue flag and the possibly modified normal,
  position and velocity.
-/

attribute [local semireducible] Rat.mul Rat.add Rat.sub Rat.inv

/-- 2D vector (`avian2d::math::Vector` with `Scalar` = `f32`, modelled
exactly over `ℚ`). -/
abbrev Vec2 : Type := ℚ × ℚ

/-- Dot product of two vectors. -/
def Vec2.dot (v w : Vec2) : ℚ := v.1 * w.1 + v.2 * w.2

/-- `DOT_EPSILON` of the source: `0.005`.  "Needed to not accidentally
explode when `n.dot(dir)` happens to be very close to zero." -/
def DOT_EPSILON : ℚ := 1 / 200

/-- `MIN_DISTANCE` of `move_and_slide`: `1e-4`. -/
def MIN_DISTANCE : ℚ := 1 / 10000

/-- Result of the external `SpatialQueryPipeline::cast_shape`
(`avian2d`'s `ShapeHitData`): `distance` is the time of impact along the
cast direction, `normal1` the outward surface normal on the hit shape. -/
structure ShapeHitData where
  entity : ℕ
  distance : ℚ
  point1 : Vec2
  point2 : Vec2
  normal1 : Vec2
  normal2 : Vec2
deriving DecidableEq

/-- One deepest contact handed to the callback of
`MoveAndSlide::intersections`: the `ContactPoint` data actually consumed
(`point`, `penetration`) and the (flipped) manifold normal. -/
structure ContactData where
  point : Vec2
  penetration : ℚ
  normal : Vec2
deriving DecidableEq

/-- The geometry provider for one `move_and_slide` call.  `castShape`
models `query_pipeline.cast_shape` (arguments: shape position, shape
rotation, cast direction, maximum distance).  `overlaps` models the
enumeration of deepest contacts produced inside
`MoveAndSlide::intersections` (arguments: shape position, shape rotation,
prediction distance). -/
structure Scene where
  castShape : Vec2 → ℚ → Vec2 → ℚ → Option ShapeHitData
  overlaps : Vec2 → ℚ → ℚ → List ContactData

/-- `MoveHitData` of the source: data for a hit during `cast_move`. -/
structure MoveHitData where
  entity : ℕ
  distance : ℚ
  point1 : Vec2
  point2 : Vec2
  normal1 : Vec2
  normal2 : Vec2
  collision_distance : ℚ
deriving DecidableEq

/-- `MoveHitData::intersects`: whether the collider started off already
intersecting another collider when it was cast (tests
`collision_distance == 0.0`). -/
def MoveHitData.intersects (self : MoveHitData) : Bool :=
  self.collision_distance == 0

/-- `DepenetrationConfig` of the source. -/
structure DepenetrationConfig where
  depenetration_iterations : ℕ
  max_depenetration_error : ℚ
  penetration_rejection_threshold : ℚ
  skin_width : ℚ
deriving DecidableEq

/-- `DepenetrationConfig::default()`: 16 iterations, error `0.0001`,
rejection threshold `0.5`, skin width `0.002`. -/
def DepenetrationConfig.default : DepenetrationConfig :=
  { depenetration_iterations := 16
    max_depenetration_error := 1 / 10000
    penetration_rejection_threshold := 1 / 2
    skin_width := 1 / 500 }

/-- `MoveAndSlideConfig` of the source. -/
structure MoveAndSlideConfig where
  move_and_slide_iterations : ℕ
  depenetration_iterations : ℕ
  max_depenetration_error : ℚ
  penetration_rejection_threshold : ℚ
  skin_width : ℚ
  planes : List Vec2
  max_planes : ℕ

/-- `From<&MoveAndSlideConfig> for DepenetrationConfig`. -/
def MoveAndSlideConfig.toDepenetrationConfig (config : MoveAndSlideConfig) :
    DepenetrationConfig :=
  { depenetration_iterations := config.depenetration_iterations
    max_depenetration_error := config.max_depenetration_error
    penetration_rejection_threshold := config.penetration_rejection_threshold
    skin_width := config.skin_width }

/-- `MoveAndSlideConfig::default()`: 4 slide iterations, depenetration
defaults, skin width `0.002 * 5.0 = 0.01`, no seed planes, 20 max planes. -/
def MoveAndSlideConfig.default : MoveAndSlideConfig :=
  { move_and_slide_iterations := 4
    depenetration_iterations := 16
    max_depenetration_error := 1 / 10000
    penetration_rejection_threshold := 1 / 2
    skin_width := 1 / 100
    planes := []
    max_planes := 20 }

/-- `MoveAndSlideOutput` of the source. -/
structure MoveAndSlideOutput where
  position : Vec2
  projected_velocity : Vec2
deriving DecidableEq

/-- Data handed to the per-contact callback of `move_and_slide`
(`MoveAndSlideHitData` of the source).  `position` and `velocity` are the
in-flight values the Rust callback receives by `&mut`. -/
structure MoveAndSlideHitData where
  entity : ℕ
  point : Vec2
  normal : Vec2
  collision_distance : ℚ
  distance : ℚ
  position : Vec2
  velocity : Vec2

/-- What the per-contact callback returns: the continue flag (the Rust
closure's `bool` return) and the final values of the `&mut` normal,
position and velocity. -/
structure OnHitResult where
  keep : Bool
  normal : Vec2
  position : Vec2
  velocity : Vec2

/-- The per-contact callback, modelled as a pure function. -/
abbrev OnHit : Type := MoveAndSlideHitData → OnHitResult

/-- A callback that keeps every contact and modifies nothing. -/
def idOnHit : OnHit := fun h =>
  { keep := true, normal := h.normal, position := h.position, velocity := h.velocity }

/-- `bevy::math::Dir2::new_and_length`, with the norm supplied by `ν`:
fails exactly when the computed length is zero (the non-finite failure
mode of `f32` has no counterpart in exact arithmetic), otherwise returns
the normalised vector and the length. -/
def dir2_new_and_length (ν : Vec2 → ℚ) (v : Vec2) : Option (Vec2 × ℚ) :=
  if ν v = 0 then none else some ((ν v)⁻¹ • v, ν v)

/-- `MoveAndSlide::pull_back`: reduce a hit distance so that the mover
keeps `skin_width` of clearance; never negative. -/
def pull_back (hit : ShapeHitData) (dir : Vec2) (skin_width : ℚ) : ℚ :=
  let dot := max (Vec2.dot dir (-hit.normal1)) DOT_EPSILON
  let skin_distance := skin_width / dot
  max (hit.distance - skin_distance) 0

/-- `MoveAndSlide::cast_move`: sweep the shape along `movement`.  Mirrors
the source line for line: `distance` is the length of `movement` (via
`Dir2::new_and_length(...).unwrap_or((Dir2::X, 0.0))`), the cast is capped
at that length, the returned `distance` is the pulled-back safe distance
and — as in the source — `collision_distance` is set to the shadowed
`distance` binding, i.e. the length of `movement`. -/
def cast_move (scene : Scene) (ν : Vec2 → ℚ) (shape_position : Vec2)
    (shape_rotation : ℚ) (movement : Vec2) (skin_width : ℚ) :
    Option MoveHitData :=
  let dl := (dir2_new_and_length ν movement).getD (((1 : ℚ), (0 : ℚ)), 0)
  let direction := dl.1
  let distance := dl.2
  match scene.castShape shape_position shape_rotation direction distance with
  | none => none
  | some shape_hit =>
    let safe_distance := if distance = 0 then 0 else pull_back shape_hit direction skin_width
    some { distance := safe_distance
           collision_distance := distance
           entity := shape_hit.entity
           point1 := shape_hit.point1
           point2 := shape_hit.point2
           normal1 := shape_hit.normal1
           normal2 := shape_hit.normal2 }

/-- The body of the inner contact loop of `depenetrate`: skip a contact
whose stated penetration exceeds the scaled rejection threshold, otherwise
compute the remaining error along its normal, push the fixup along the
normal by it and add it to the running total. -/
def depenContactStep (length_unit : ℚ) (config : DepenetrationConfig)
    (acc : Vec2 × ℚ) (nd : Vec2 × ℚ) : Vec2 × ℚ :=
  if length_unit * config.penetration_rejection_threshold < nd.2 then acc
  else
    let error := max (nd.2 - Vec2.dot acc.1 nd.1) 0
    (acc.1 + error • nd.1, acc.2 + error)

/-- One round of the Gauss-Seidel depenetration relaxation: fold over the
contacts and accumulate (fixup, total error). -/
def depenRound (length_unit : ℚ) (config : DepenetrationConfig)
    (intersections : List (Vec2 × ℚ)) (fixup : Vec2) : Vec2 × ℚ :=
  intersections.foldl (depenContactStep length_unit config) (fixup, 0)

/-- The outer iteration of `MoveAndSlide::depenetrate`: run rounds until
the iteration budget is spent or a round's total error drops below the
scaled target error. -/
def depenLoop (length_unit : ℚ) (config : DepenetrationConfig)
    (intersections : List (Vec2 × ℚ)) : ℕ → Vec2 → Vec2
  | 0, fixup => fixup
  | n + 1, fixup =>
    let step := depenRound length_unit config intersections fixup
    if step.2 < length_unit * config.max_depenetration_error then step.1
    else depenLoop length_unit config intersections n step.1

/-- `MoveAndSlide::depenetrate`: empty input gives zero displacement,
otherwise iterate `depenRound` up to `depenetration_iterations` times. -/
def depenetrate (length_unit : ℚ) (config : DepenetrationConfig)
    (intersections : List (Vec2 × ℚ)) : Vec2 :=
  if intersections = [] then 0
  else depenLoop length_unit config intersections config.depenetration_iterations 0

/-- The half-space validity test closed over in `project_velocity`:
whether `p` satisfies `p ⬝ n ≥ -DOT_EPSILON` for every normal. -/
def isValidB (normals : List Vec2) (p : Vec2) : Bool :=
  normals.all fun n => decide (-DOT_EPSILON ≤ Vec2.dot p n)

/-- The comparison against the running best squared distance
(`Scalar::INFINITY` is modelled as `none`). -/
def distanceLt (d : ℚ) : Option ℚ → Bool
  | none => true
  | some best => decide (d < best)

/-- The body of the face-projection loop of `project_velocity`: try the
single-plane projection for a violated normal and keep it when it is
valid and closer than the best so far. -/
def projStep (v : Vec2) (normals : List Vec2) (acc : Vec2 × Option ℚ) (n : Vec2) :
    Vec2 × Option ℚ :=
  let v_dot_n := Vec2.dot v n
  if v_dot_n < 0 then
    let projection := v - v_dot_n • n
    let distance_sq := Vec2.dot (v - projection) (v - projection)
    if distanceLt distance_sq acc.2 && isValidB normals projection then
      (projection, some distance_sq)
    else acc
  else acc

/-- `MoveAndSlide::project_velocity`: project `v` onto the convex cone of
the contact normals — fast path when `v` already satisfies every
half-space, otherwise the best valid single-plane projection, otherwise
the apex (zero). -/
def project_velocity (v : Vec2) (normals : List Vec2) : Vec2 :=
  if isValidB normals v then v
  else
    let best := normals.foldl (projStep v normals) ((0 : Vec2), (none : Option ℚ))
    match best.2 with
    | none => 0
    | some _ => best.1

/-- Accumulator of the contact-collection closure inside the
`move_and_slide` loop: the velocity-clipping plane set, the penetrating
contacts recorded for depenetration, and the in-flight position and
velocity the callback may mutate. -/
structure CollectState where
  planes : List Vec2
  inters : List (Vec2 × ℚ)
  position : Vec2
  velocity : Vec2

/-- The argument handed to the caller's callback for one contact: the
swept hit's entity and distances, the contact's point and normal, and the
in-flight position and velocity. -/
def hitDataFor (sweep_hit : MoveHitData) (s : CollectState) (c : ContactData) :
    MoveAndSlideHitData :=
  { entity := sweep_hit.entity
    point := c.point
    normal := c.normal
    collision_distance := sweep_hit.collision_distance
    distance := sweep_hit.distance
    position := s.position
    velocity := s.velocity }

/-- One step of the contact-collection closure (`move_and_slide` lines
170–197): reject once the plane cap is reached, invoke the caller's
callback, and on acceptance append the (possibly modified) normal and
record positive total penetration for depenetration. -/
def collectStep (config : MoveAndSlideConfig) (on_hit : OnHit)
    (sweep_hit : MoveHitData) (s : CollectState) (c : ContactData) : CollectState :=
  if config.max_planes ≤ s.planes.length then s
  else
    let r := on_hit (hitDataFor sweep_hit s c)
    if r.keep then
      { planes := s.planes ++ [r.normal]
        inters :=
          if 0 < c.penetration + config.skin_width then
            s.inters ++ [(r.normal, c.penetration + config.skin_width)]
          else s.inters
        position := r.position
        velocity := r.velocity }
    else
      { s with position := r.position, velocity := r.velocity }

/-- The full contact collection of one `move_and_slide` iteration: enumerate
the scene's deepest contacts at the post-move position with the doubled
skin width and fold `collectStep` over them, seeded with the
caller-configured planes. -/
def iterContacts (scene : Scene) (shape_rotation : ℚ) (config : MoveAndSlideConfig)
    (on_hit : OnHit) (sweep_hit : MoveHitData) (position velocity : Vec2) :
    CollectState :=
  (scene.overlaps position shape_rotation (config.skin_width * 2)).foldl
    (collectStep config on_hit sweep_hit)
    { planes := config.planes, inters := [], position := position, velocity := velocity }

/-- The mutable state of the main `move_and_slide` loop. -/
structure MoveState where
  position : Vec2
  velocity : Vec2
  time_left : ℚ
deriving DecidableEq

/-- The main loop of `move_and_slide` (lines 118–213), one constructor per
exit path of the `'outer` loop: sweep, move up to the hit, collect contact
planes, depenetrate, clip the velocity, apply the anti-jitter rule. -/
def slideLoop (scene : Scene) (ν : Vec2 → ℚ) (shape_rotation length_unit : ℚ)
    (config : MoveAndSlideConfig) (on_hit : OnHit) (original_velocity : Vec2) :
    ℕ → MoveState → MoveState
  | 0, s => s
  | n + 1, s =>
    let sweep := s.time_left • s.velocity
    match dir2_new_and_length ν sweep with
    | none => s
    | some (vel_dir, distance) =>
      if distance < MIN_DISTANCE then s
      else
        match cast_move scene ν s.position shape_rotation sweep config.skin_width with
        | none => { s with position := s.position + sweep }
        | some sweep_hit =>
          if sweep_hit.intersects then { s with velocity := 0 }
          else
            let time_left := s.time_left - s.time_left * (sweep_hit.distance / distance)
            let position := s.position + sweep_hit.distance • vel_dir
            let cs := iterContacts scene shape_rotation config on_hit sweep_hit position s.velocity
            let position := cs.position +
              depenetrate length_unit config.toDepenetrationConfig cs.inters
            let velocity := project_velocity cs.velocity cs.planes
            if Vec2.dot velocity original_velocity ≤ -DOT_EPSILON then
              { position := position, velocity := 0, time_left := time_left }
            else
              slideLoop scene ν shape_rotation length_unit config on_hit original_velocity n
                { position := position, velocity := velocity, time_left := time_left }

/-- `MoveAndSlide::move_and_slide`: initial depenetration pass at the
start position, then the main slide loop for up to
`move_and_slide_iterations` iterations. -/
def move_and_slide (scene : Scene) (ν : Vec2 → ℚ) (length_unit : ℚ)
    (shape_position : Vec2) (shape_rotation : ℚ) (velocity : Vec2)
    (delta_time : ℚ) (config : MoveAndSlideConfig) (on_hit : OnHit) :
    MoveAndSlideOutput :=
  let original_velocity := velocity
  let intersections :=
    (scene.overlaps shape_position shape_rotation config.skin_width).map
      fun c => (c.normal, c.penetration + config.skin_width)
  let position := shape_position +
    depenetrate length_unit config.toDepenetrationConfig intersections
  let final := slideLoop scene ν shape_rotation length_unit config on_hit original_velocity
    config.move_and_slide_iterations
    { position := position, velocity := velocity, time_left := delta_time }
  { position := final.position, projected_velocity := final.velocity }

/-! ## Checked (failure-aware) variants

The source performs three divisions (the normalisation inside
`Dir2::new_and_length`, `skin_width / dot` in `pull_back`, and
`sweep_hit.distance / distance` in the main loop).  The checked variants
below return `none` whenever a division by zero would be reached, and the
safety theorem shows they always return `some` of the plain result: every
division is guarded by the surrounding control flow. -/

/-- Division that reports a zero divisor instead of defaulting. -/
def qdivChecked (a b : ℚ) : Option ℚ := if b = 0 then none else some (a / b)

/-- Inversion that reports a zero argument instead of defaulting. -/
def qinvChecked (b : ℚ) : Option ℚ := if b = 0 then none else some b⁻¹

/-- Checked `dir2_new_and_length`: outer `none` marks a division by zero,
inner `none` the normalisation failure of the source. -/
def dir2Checked (ν : Vec2 → ℚ) (v : Vec2) : Option (Option (Vec2 × ℚ)) :=
  if ν v = 0 then some none
  else
    match qinvChecked (ν v) with
    | none => none
    | some i => some (some (i • v, ν v))

/-- Checked `pull_back`. -/
def pullBackChecked (hit : ShapeHitData) (dir : Vec2) (skin_width : ℚ) :
    Option ℚ :=
  match qdivChecked skin_width (max (Vec2.dot dir (-hit.normal1)) DOT_EPSILON) with
  | none => none
  | some skin_distance => some (max (hit.distance - skin_distance) 0)

/-- Checked `cast_move`: outer `none` marks a division by zero, inner
`none` the miss of the cast. -/
def castMoveChecked (scene : Scene) (ν : Vec2 → ℚ) (shape_position : Vec2)
    (shape_rotation : ℚ) (movement : Vec2) (skin_width : ℚ) :
    Option (Option MoveHitData) :=
  match dir2Checked ν movement with
  | none => none
  | some dl0 =>
    let dl := dl0.getD (((1 : ℚ), (0 : ℚ)), 0)
    match scene.castShape shape_position shape_rotation dl.1 dl.2 with
    | none => some none
    | some shape_hit =>
      if dl.2 = 0 then
        some (some { distance := 0
                     collision_distance := dl.2
                     entity := shape_hit.entity
                     point1 := shape_hit.point1
                     point2 := shape_hit.point2
                     normal1 := shape_hit.normal1
                     normal2 := shape_hit.normal2 })
      else
        match pullBackChecked shape_hit dl.1 skin_width with
        | none => none
        | some safe_distance =>
          some (some { distance := safe_distance
                       collision_distance := dl.2
                       entity := shape_hit.entity
                       point1 := shape_hit.point1
                       point2 := shape_hit.point2
                       normal1 := shape_hit.normal1
                       normal2 := shape_hit.normal2 })

/-- Checked main loop. -/
def slideLoopChecked (scene : Scene) (ν : Vec2 → ℚ) (shape_rotation length_unit : ℚ)
    (config : MoveAndSlideConfig) (on_hit : OnHit) (original_velocity : Vec2) :
    ℕ → MoveState → Option MoveState
  | 0, s => some s
  | n + 1, s =>
    let sweep := s.time_left • s.velocity
    match dir2Checked ν sweep with
    | none => none
    | some none => some s
    | some (some (vel_dir, distance)) =>
      if distance < MIN_DISTANCE then some s
      else
        match castMoveChecked scene ν s.position shape_rotation sweep config.skin_width with
        | none => none
        | some none => some { s with position := s.position + sweep }
        | some (some sweep_hit) =>
          if sweep_hit.intersects then some { s with velocity := 0 }
          else
            match qdivChecked sweep_hit.distance distance with
            | none => none
            | some frac =>
              let time_left := s.time_left - s.time_left * frac
              let position := s.position + sweep_hit.distance • vel_dir
              let cs := iterContacts scene shape_rotation config on_hit sweep_hit position s.velocity
              let position := cs.position +
                depenetrate length_unit config.toDepenetrationConfig cs.inters
              let velocity := project_velocity cs.velocity cs.planes
              if Vec2.dot velocity original_velocity ≤ -DOT_EPSILON then
                some { position := position, velocity := 0, time_left := time_left }
              else
                slideLoopChecked scene ν shape_rotation length_unit config on_hit
                  original_velocity n
                  { position := position, velocity := velocity, time_left := time_left }

/-- Checked `move_and_slide`. -/
def moveAndSlideChecked (scene : Scene) (ν : Vec2 → ℚ) (length_unit : ℚ)
    (shape_position : Vec2) (shape_rotation : ℚ) (velocity : Vec2)
    (delta_time : ℚ) (config : MoveAndSlideConfig) (on_hit : OnHit) :
    Option MoveAndSlideOutput :=
  let original_velocity := velocity
  let intersections :=
    (scene.overlaps shape_position shape_rotation config.skin_width).map
      fun c => (c.normal, c.penetration + config.skin_width)
  let position := shape_position +
    depenetrate length_unit config.toDepenetrationConfig intersections
  match slideLoopChecked scene ν shape_rotation length_unit config on_hit original_velocity
      config.move_and_slide_iterations
      { position := position, velocity := velocity, time_left := delta_time } with
  | none => none
  | some final => some { position := final.position, projected_velocity := final.velocity }

/-! ## Concrete scenes and norms used by the concrete theorems -/

/-- A scene with no colliders: every cast misses, every overlap query is
empty. -/
def emptyScene : Scene :=
  { castShape := fun _ _ _ _ => none, overlaps := fun _ _ _ => [] }

/-- A scene whose cast always reports the shape already intersecting
(time of impact `0`, surface normal `(0, 1)`), with no overlap contacts. -/
def trappedScene : Scene :=
  { castShape := fun _ _ _ _ =>
      some { entity := 0, distance := 0, point1 := (0, 0), point2 := (0, 0)
             normal1 := (0, 1), normal2 := (0, -1) }
    overlaps := fun _ _ _ => [] }

/-- A scene whose cast reports a wall at sweep distance `2` with surface
normal `(-3/5, -4/5)` (opposing a cast in direction `(3/5, 4/5)`). -/
def wallScene2 : Scene :=
  { castShape := fun _ _ _ _ =>
      some { entity := 7, distance := 2, point1 := (0, 0), point2 := (0, 0)
             normal1 := (-3/5, -4/5), normal2 := (3/5, 4/5) }
    overlaps := fun _ _ _ => [] }

/-- A scene whose cast reports a floor at sweep distance `3` with surface
normal `(0, 1)`, with no overlap contacts. -/
def floorScene : Scene :=
  { castShape := fun _ _ _ _ =>
      some { entity := 0, distance := 3, point1 := (0, 0), point2 := (0, 0)
             normal1 := (0, 1), normal2 := (0, -1) }
    overlaps := fun _ _ _ => [] }

/-- The exact Euclidean norm at the single vector `(0, -10)`, zero
elsewhere (only that vector is normalised in the executions using it). -/
def nuDown10 : Vec2 → ℚ := fun w => if w = ((0 : ℚ), (-10 : ℚ)) then 10 else 0

/-- The exact Euclidean norm at the single vector `(3, 4)`. -/
def nu34 : Vec2 → ℚ := fun w => if w = ((3 : ℚ), (4 : ℚ)) then 5 else 0

/-- The exact Euclidean norm at the single vector `(1/20000, 0)`. -/
def nuTiny : Vec2 → ℚ := fun w => if w = ((1/20000 : ℚ), (0 : ℚ)) then 1/20000 else 0

/-- Membership in the convex cone spanned by a list of normals: a finite
sum of nonnegative multiples of the listed vectors. -/
inductive InCone (normals : List Vec2) : Vec2 → Prop
  | zero : InCone normals 0
  | add (w : Vec2) (c : ℚ) (n : Vec2) :
      InCone normals w → 0 ≤ c → n ∈ normals → InCone normals (w + c • n)

/-! ## Theorems -/

/-- Helper: depenetration of an empty contact list is the zero vector. -/
theorem depenetrate_nil (length_unit : ℚ) (config : DepenetrationConfig) :
    depenetrate length_unit config [] = 0 := by
  simp [depenetrate]

/-- C1.  The spec says a sweep that starts already intersecting (zero time
of impact) traps the character: velocity is zeroed and the call returns
the zero vector.  The code tests `collision_distance == 0`, but
`cast_move` stores the length of the attempted sweep — never zero inside
the loop — in that field, so the trapped branch cannot fire: with a cast
oracle that always reports time of impact `0`, the call returns the input
velocity `(0, -10)` unchanged instead of zero. -/
theorem c1_trapped_sweep_not_zeroed :
    (trappedScene.castShape (0, 0) 0 (0, -1) 10).map ShapeHitData.distance = some 0 ∧
    move_and_slide trappedScene (fun _ => 10) 1 (0, 0) 0 (0, -10) 1
        MoveAndSlideConfig.default idOnHit =
      { position := (0, 0), projected_velocity := (0, -10) } := by
  exact ⟨rfl, by decide⟩

/-- C2.  The spec says `collision_distance` is the raw time of impact of
the sweep.  In the code the field is assigned the shadowed `distance`
binding of `cast_move` — the length of the whole attempted movement: for
the movement `(3, 4)` (length `5`) against a wall first contacted at
sweep distance `2`, the returned hit carries `collision_distance = 5`,
not `2`, while `distance` is correctly pulled back from the real time of
impact (`2 - 0.01 = 1.99`). -/
theorem c2_collision_distance_is_sweep_length :
    wallScene2.castShape (0, 0) 0 (3/5, 4/5) 5 =
      some { entity := 7, distance := 2, point1 := (0, 0), point2 := (0, 0)
             normal1 := (-3/5, -4/5), normal2 := (3/5, 4/5) } ∧
    cast_move wallScene2 nu34 (0, 0) 0 (3, 4) (1/100) =
      some { entity := 7, distance := 199/100, point1 := (0, 0), point2 := (0, 0)
             normal1 := (-3/5, -4/5), normal2 := (3/5, 4/5), collision_distance := 5 } := by
  exact ⟨rfl, by decide⟩

/-- C4 counterexample.  The Velocity Clipper applied to `(1, -1)` with the
normals `(0, 1)` and `(1, 0)` does not return the zero vector. -/
theorem c4_corner_cex :
    project_velocity ((1 : ℚ), (-1 : ℚ)) [((0 : ℚ), (1 : ℚ)), ((1 : ℚ), (0 : ℚ))] ≠
      (0 : Vec2) := by
  decide

/-- C4 amended.  For `(1, -1)` against `(0, 1)` and `(1, 0)` the
projection onto the first plane, `(1, 0)`, satisfies both constraints and
is returned; the zero-vector fallback needs a genuinely conflicting
corner, e.g. normals `(0, 1)` and `(-1, 0)`. -/
theorem c4_corner_amended :
    project_velocity ((1 : ℚ), (-1 : ℚ)) [((0 : ℚ), (1 : ℚ)), ((1 : ℚ), (0 : ℚ))] =
      ((1 : ℚ), (0 : ℚ)) ∧
    project_velocity ((1 : ℚ), (-1 : ℚ)) [((0 : ℚ), (1 : ℚ)), ((-1 : ℚ), (0 : ℚ))] =
      (0 : Vec2) := by
  decide

/-- C7.  One contact `(normal (0, 1), penetration 1/2)` under the default
depenetration config with physics length unit `1`: the returned
displacement's dot product with the normal is within
`max_depenetration_error` of `1/2` (here it is exactly `1/2`). -/
theorem c7_depenetration_convergence :
    |Vec2.dot (depenetrate 1 DepenetrationConfig.default [(((0 : ℚ), (1 : ℚ)), 1/2)])
        ((0 : ℚ), (1 : ℚ)) - 1/2| ≤
      DepenetrationConfig.default.max_depenetration_error := by
  decide

/-- C3 counterexample.  With an empty scene, velocity `(1/20000, 0)` and
`delta_time = 1` the sweep length `1/20000` is below the `MIN_DISTANCE`
cutoff `1e-4`, so the loop exits without moving: the returned position is
the input position, not `position + velocity * delta_time`. -/
theorem c3_empty_scene_small_velocity_cex :
    (move_and_slide emptyScene nuTiny 1 (0, 0) 0 (1/20000, 0) 1
        MoveAndSlideConfig.default idOnHit).position ≠
      ((1/20000 : ℚ), (0 : ℚ)) := by
  decide

/-- Helper: when every cast of the scene misses, `cast_move` returns
`none`. -/
theorem cast_move_none (scene : Scene) (ν : Vec2 → ℚ) (shape_position : Vec2)
    (shape_rotation : ℚ) (movement : Vec2) (skin_width : ℚ)
    (hcast : ∀ p r d m, scene.castShape p r d m = none) :
    cast_move scene ν shape_position shape_rotation movement skin_width = none := by
  simp only [cast_move, hcast]

/-- C3 amended.  With an empty scene (every cast misses, every overlap
query is empty), a norm oracle that is exact at the swept vector, at
least one configured slide iteration, and a sweep `velocity * delta_time`
that is either zero or of length at least `MIN_DISTANCE`, the call
returns `position + velocity * delta_time` and the velocity unchanged.
The counterexample shows the unqualified claim fails for a tiny nonzero
sweep, which the `MIN_DISTANCE` cutoff discards without moving. -/
theorem c3_empty_scene_full_move (scene : Scene) (ν : Vec2 → ℚ)
    (length_unit : ℚ) (shape_position : Vec2) (shape_rotation : ℚ)
    (velocity : Vec2) (delta_time : ℚ) (config : MoveAndSlideConfig) (on_hit : OnHit)
    (hcast : ∀ p r d m, scene.castShape p r d m = none)
    (hover : ∀ p r pd, scene.overlaps p r pd = [])
    (hnorm : ν (delta_time • velocity) * ν (delta_time • velocity) =
      Vec2.dot (delta_time • velocity) (delta_time • velocity))
    (hiter : 1 ≤ config.move_and_slide_iterations)
    (hbig : delta_time • velocity = 0 ∨ MIN_DISTANCE ≤ ν (delta_time • velocity)) :
    move_and_slide scene ν length_unit shape_position shape_rotation velocity
        delta_time config on_hit =
      { position := shape_position + delta_time • velocity,
        projected_velocity := velocity } := by
  obtain ⟨k, hk⟩ := Nat.exists_eq_add_of_le hiter
  simp only [move_and_slide, hover, List.map_nil, depenetrate_nil, add_zero, hk,
    Nat.add_comm 1 k]
  simp only [slideLoop]
  rcases hbig with h0 | hmin
  · have hdot : Vec2.dot (delta_time • velocity) (delta_time • velocity) = 0 := by
      rw [h0]; simp [Vec2.dot]
    have hz : ν (delta_time • velocity) = 0 := mul_self_eq_zero.mp (hnorm.trans hdot)
    have hdir : dir2_new_and_length ν (delta_time • velocity) = none := by
      simp [dir2_new_and_length, hz]
    simp only [hdir]
    rw [h0, add_zero]
  · have hz : ν (delta_time • velocity) ≠ 0 := by
      intro h
      rw [h] at hmin
      exact absurd hmin (by norm_num [MIN_DISTANCE])
    have hdir : dir2_new_and_length ν (delta_time • velocity) =
        some ((ν (delta_time • velocity))⁻¹ • (delta_time • velocity),
          ν (delta_time • velocity)) := by
      simp [dir2_new_and_length, hz]
    have hlt : ¬ ν (delta_time • velocity) < MIN_DISTANCE := not_lt.mpr hmin
    simp only [hdir, hlt, if_false, cast_move_none scene ν _ _ _ _ hcast]

/-- Witness for C3: the empty scene, velocity `(0, -10)`, `delta_time = 1`
and the default config move the full `(0, -10)` with velocity unchanged. -/
theorem c3_empty_scene_full_move_witness :
    move_and_slide emptyScene nuDown10 1 (0, 0) 0 (0, -10) 1
        MoveAndSlideConfig.default idOnHit =
      { position := ((0 : ℚ), (0 : ℚ)) + (1 : ℚ) • ((0 : ℚ), (-10 : ℚ)),
        projected_velocity := (0, -10) } :=
  c3_empty_scene_full_move emptyScene nuDown10 1 (0, 0) 0 (0, -10) 1
    MoveAndSlideConfig.default idOnHit (fun _ _ _ _ => rfl) (fun _ _ _ => rfl)
    (by decide) (by decide) (Or.inr (by decide))

/-- Helper: unpack `isValidB` at a member of the normal list. -/
theorem isValidB_dot {normals : List Vec2} {p : Vec2}
    (h : isValidB normals p = true) {n : Vec2} (hn : n ∈ normals) :
    -DOT_EPSILON ≤ Vec2.dot p n := by
  have := List.all_eq_true.mp h n hn
  exact of_decide_eq_true this

/-- Helper: along the face-projection fold of `project_velocity`, any
recorded best candidate satisfies every half-space constraint, because
`is_valid` is part of the acceptance test. -/
theorem projFold_valid (v : Vec2) (normals : List Vec2) :
    ∀ (l : List Vec2) (acc : Vec2 × Option ℚ),
      (∀ q, acc.2 = some q → isValidB normals acc.1 = true) →
      ∀ q, (l.foldl (projStep v normals) acc).2 = some q →
        isValidB normals (l.foldl (projStep v normals) acc).1 = true := by
  intro l
  induction l with
  | nil => intro acc h q hq; exact h q hq
  | cons n t ih =>
    intro acc h q hq
    refine ih (projStep v normals acc n) ?_ q hq
    intro q2 hq2
    unfold projStep at hq2 ⊢
    by_cases h1 : Vec2.dot v n < 0
    · simp only [if_pos h1] at hq2 ⊢
      by_cases h2 : (distanceLt (Vec2.dot (v - (v - Vec2.dot v n • n)) (v - (v - Vec2.dot v n • n)))
          acc.2 && isValidB normals (v - Vec2.dot v n • n)) = true
      · simp only [if_pos h2] at hq2 ⊢
        exact (Bool.and_eq_true_iff.mp h2).2
      · simp only [if_neg h2] at hq2 ⊢
        exact h q2 hq2
    · simp only [if_neg h1] at hq2 ⊢
      exact h q2 hq2

/-- C5.  For every input velocity and every list of normals (in
particular any at most two non-parallel unit normals), the output of the
Velocity Clipper satisfies `output ⬝ n ≥ -DOT_EPSILON` for every normal
`n` of the list: the fast path checks it, a face projection is only
accepted after the same validity test, and the apex fallback is the zero
vector. -/
theorem c5_clipper_feasibility (v : Vec2) (normals : List Vec2) (n : Vec2)
    (hn : n ∈ normals) :
    -DOT_EPSILON ≤ Vec2.dot (project_velocity v normals) n := by
  unfold project_velocity
  by_cases h : isValidB normals v = true
  · rw [if_pos h]
    exact isValidB_dot h hn
  · rw [if_neg h]
    cases hb : (normals.foldl (projStep v normals) ((0 : Vec2), (none : Option ℚ))).2 with
    | none =>
      simp only [hb]
      have : Vec2.dot (0 : Vec2) n = 0 := by simp [Vec2.dot]
      rw [this]
      norm_num [DOT_EPSILON]
    | some q =>
      simp only [hb]
      have hvalid := projFold_valid v normals normals ((0 : Vec2), (none : Option ℚ))
        (fun q hq => by simp at hq) q hb
      exact isValidB_dot hvalid hn

/-- Witness for C5: the clipper output for `(1, -1)` against the corner
normals `(0, 1)` and `(-1, 0)` satisfies the half-space of `(0, 1)`. -/
theorem c5_clipper_feasibility_witness :
    -DOT_EPSILON ≤ Vec2.dot
      (project_velocity ((1 : ℚ), (-1 : ℚ)) [((0 : ℚ), (1 : ℚ)), ((-1 : ℚ), (0 : ℚ))])
      ((0 : ℚ), (1 : ℚ)) :=
  c5_clipper_feasibility ((1 : ℚ), (-1 : ℚ)) [((0 : ℚ), (1 : ℚ)), ((-1 : ℚ), (0 : ℚ))]
    ((0 : ℚ), (1 : ℚ)) (by decide)

/-- Helper: one contact-collection step only ever appends to the plane
list, and never pushes it past the cap once the cap is reached. -/
theorem collectStep_planes (config : MoveAndSlideConfig) (on_hit : OnHit)
    (sweep_hit : MoveHitData) (s : CollectState) (c : ContactData) :
    (∃ t, (collectStep config on_hit sweep_hit s c).planes = s.planes ++ t) ∧
    max (collectStep config on_hit sweep_hit s c).planes.length config.max_planes ≤
      max s.planes.length config.max_planes := by
  unfold collectStep
  by_cases h1 : config.max_planes ≤ s.planes.length
  · rw [if_pos h1]
    exact ⟨⟨[], (List.append_nil _).symm⟩, le_rfl⟩
  · rw [if_neg h1]
    cases hk : (on_hit (hitDataFor sweep_hit s c)).keep with
    | false =>
      simp only [hk, Bool.false_eq_true, if_false]
      exact ⟨⟨[], (List.append_nil _).symm⟩, le_rfl⟩
    | true =>
      simp only [hk, if_true]
      have hlt : s.planes.length < config.max_planes := Nat.lt_of_not_le h1
      constructor
      · exact ⟨[(on_hit (hitDataFor sweep_hit s c)).normal], rfl⟩
      · have hlen : (s.planes ++ [(on_hit (hitDataFor sweep_hit s c)).normal]).length =
            s.planes.length + 1 := by simp
        rw [hlen, max_eq_right (Nat.succ_le_of_lt hlt), max_eq_right (Nat.le_of_lt hlt)]

/-- Helper: folding the contact-collection step over any contact list
only appends planes and keeps the running bound
`max planes.length max_planes` from growing. -/
theorem collectFold_planes (config : MoveAndSlideConfig) (on_hit : OnHit)
    (sweep_hit : MoveHitData) :
    ∀ (contacts : List ContactData) (s : CollectState),
      (∃ t, (contacts.foldl (collectStep config on_hit sweep_hit) s).planes = s.planes ++ t) ∧
      max (contacts.foldl (collectStep config on_hit sweep_hit) s).planes.length
          config.max_planes ≤ max s.planes.length config.max_planes := by
  intro contacts
  induction contacts with
  | nil =>
    intro s
    exact ⟨⟨[], (List.append_nil _).symm⟩, le_rfl⟩
  | cons c t ih =>
    intro s
    simp only [List.foldl_cons]
    obtain ⟨⟨t1, ht1⟩, hm1⟩ := ih (collectStep config on_hit sweep_hit s c)
    obtain ⟨⟨t0, ht0⟩, hm0⟩ := collectStep_planes config on_hit sweep_hit s c
    refine ⟨⟨t0 ++ t1, ?_⟩, le_trans hm1 hm0⟩
    rw [ht1, ht0, List.append_assoc]

/-- C8.  The plane set a `move_and_slide` iteration hands to the Velocity
Clipper starts as the caller-supplied seed planes and is only ever
appended to (so every seed plane is in it and previously inserted normals
are never modified), and its size never exceeds
`max (seed count) max_planes`: once `max_planes` is reached, no further
contact plane is appended during the iteration. -/
theorem c8_plane_set_invariants (scene : Scene) (shape_rotation : ℚ)
    (config : MoveAndSlideConfig) (on_hit : OnHit) (sweep_hit : MoveHitData)
    (position velocity : Vec2) :
    (∃ t, (iterContacts scene shape_rotation config on_hit sweep_hit position velocity).planes
        = config.planes ++ t) ∧
    (iterContacts scene shape_rotation config on_hit sweep_hit position velocity).planes.length
      ≤ max config.planes.length config.max_planes ∧
    ∀ (contacts : List ContactData) (s : CollectState), ∃ t,
      (contacts.foldl (collectStep config on_hit sweep_hit) s).planes = s.planes ++ t := by
  have h := collectFold_planes config on_hit sweep_hit
  refine ⟨(h _ _).1, le_trans (le_max_left _ _) (h _ _).2, fun contacts s => (h contacts s).1⟩

/-- Helper: one depenetration contact step keeps the fixup inside the
convex cone of the normals (the pushed error is nonnegative). -/
theorem inCone_depenContactStep (normals : List Vec2) (length_unit : ℚ)
    (config : DepenetrationConfig) (acc : Vec2 × ℚ) (nd : Vec2 × ℚ)
    (hmem : nd.1 ∈ normals) (hacc : InCone normals acc.1) :
    InCone normals (depenContactStep length_unit config acc nd).1 := by
  unfold depenContactStep
  by_cases h : length_unit * config.penetration_rejection_threshold < nd.2
  · rw [if_pos h]; exact hacc
  · rw [if_neg h]
    exact InCone.add acc.1 _ nd.1 hacc (le_max_right _ _) hmem

/-- Helper: one full relaxation round keeps the fixup inside the cone. -/
theorem inCone_depenRound_fold (normals : List Vec2) (length_unit : ℚ)
    (config : DepenetrationConfig) :
    ∀ (inters : List (Vec2 × ℚ)) (acc : Vec2 × ℚ),
      (∀ nd ∈ inters, nd.1 ∈ normals) → InCone normals acc.1 →
      InCone normals (inters.foldl (depenContactStep length_unit config) acc).1 := by
  intro inters
  induction inters with
  | nil => intro acc _ hacc; exact hacc
  | cons nd t ih =>
    intro acc hmem hacc
    simp only [List.foldl_cons]
    exact ih _ (fun x hx => hmem x (List.mem_cons_of_mem nd hx))
      (inCone_depenContactStep normals length_unit config acc nd
        (hmem nd (List.mem_cons_self nd t)) hacc)

/-- Helper: the outer depenetration iteration keeps the fixup inside the
cone for every fuel value. -/
theorem inCone_depenLoop (normals : List Vec2) (length_unit : ℚ)
    (config : DepenetrationConfig) :
    ∀ (fuel : ℕ) (inters : List (Vec2 × ℚ)) (fixup : Vec2),
      (∀ nd ∈ inters, nd.1 ∈ normals) → InCone normals fixup →
      InCone normals (depenLoop length_unit config inters fuel fixup) := by
  intro fuel
  induction fuel with
  | zero => intro inters fixup _ h; exact h
  | succ n ih =>
    intro inters fixup hmem h
    simp only [depenLoop, depenRound]
    have hstep := inCone_depenRound_fold normals length_unit config inters (fixup, 0) hmem h
    by_cases hc : (inters.foldl (depenContactStep length_unit config) (fixup, 0)).2 <
        length_unit * config.max_depenetration_error
    · rw [if_pos hc]; exact hstep
    · rw [if_neg hc]; exact ih inters _ hmem hstep

/-- Helper: the depenetration displacement lies in the convex cone of the
input normals. -/
theorem inCone_depenetrate (length_unit : ℚ) (config : DepenetrationConfig)
    (intersections : List (Vec2 × ℚ)) :
    InCone (intersections.map Prod.fst) (depenetrate length_unit config intersections) := by
  unfold depenetrate
  by_cases h : intersections = []
  · rw [if_pos h]; exact InCone.zero
  · rw [if_neg h]
    exact inCone_depenLoop _ length_unit config config.depenetration_iterations
      intersections 0 (fun nd hnd => List.mem_map_of_mem Prod.fst hnd) InCone.zero

/-- Helper: a member of the cone over a single normal is a nonnegative
multiple of that normal. -/
theorem inCone_singleton {n0 w : Vec2} (h : InCone [n0] w) :
    ∃ c : ℚ, 0 ≤ c ∧ w = c • n0 := by
  induction h with
  | zero => exact ⟨0, le_rfl, (zero_smul ℚ n0).symm⟩
  | add w c n hw hc hn ih =>
    obtain ⟨c1, hc1, h1⟩ := ih
    have hn0 : n = n0 := by simpa using hn
    exact ⟨c1 + c, add_nonneg hc1 hc, by rw [h1, hn0, add_smul]⟩

/-- C10.  For every config and contact list the displacement returned by
`depenetrate` is a finite sum of nonnegative multiples of the input
contact normals; in particular it is zero for an empty contact list and a
nonnegative multiple of the single normal for a one-contact list. -/
theorem c10_depenetration_cone (length_unit : ℚ) (config : DepenetrationConfig)
    (intersections : List (Vec2 × ℚ)) :
    InCone (intersections.map Prod.fst) (depenetrate length_unit config intersections) ∧
    depenetrate length_unit config [] = 0 ∧
    ∀ (n : Vec2) (d : ℚ), ∃ c : ℚ, 0 ≤ c ∧ depenetrate length_unit config [(n, d)] = c • n := by
  refine ⟨inCone_depenetrate _ _ _, depenetrate_nil _ _, fun n d => ?_⟩
  have h := inCone_depenetrate length_unit config [(n, d)]
  simp only [List.map_cons, List.map_nil] at h
  exact inCone_singleton h

/-- C6.  At any iteration of the slide loop, from any state: if the sweep
succeeds, the hit is not an `intersects` hit, and the newly clipped
velocity's dot product with the original input velocity is at or below
`-DOT_EPSILON`, the loop sets the velocity to exactly zero and returns
immediately — the result does not depend on the remaining iteration
budget, so the call returns `projected_velocity = 0`. -/
theorem c6_anti_jitter_stops (scene : Scene) (ν : Vec2 → ℚ)
    (shape_rotation length_unit : ℚ) (config : MoveAndSlideConfig) (on_hit : OnHit)
    (original_velocity : Vec2) (s : MoveState) (vel_dir : Vec2) (distance : ℚ)
    (sweep_hit : MoveHitData)
    (h1 : dir2_new_and_length ν (s.time_left • s.velocity) = some (vel_dir, distance))
    (h2 : ¬ distance < MIN_DISTANCE)
    (h3 : cast_move scene ν s.position shape_rotation (s.time_left • s.velocity)
        config.skin_width = some sweep_hit)
    (h4 : sweep_hit.intersects = false)
    (h5 : Vec2.dot
        (project_velocity
          (iterContacts scene shape_rotation config on_hit sweep_hit
            (s.position + sweep_hit.distance • vel_dir) s.velocity).velocity
          (iterContacts scene shape_rotation config on_hit sweep_hit
            (s.position + sweep_hit.distance • vel_dir) s.velocity).planes)
        original_velocity ≤ -DOT_EPSILON) :
    ∀ n : ℕ,
      slideLoop scene ν shape_rotation length_unit config on_hit original_velocity (n + 1) s =
        { position :=
            (iterContacts scene shape_rotation config on_hit sweep_hit
              (s.position + sweep_hit.distance • vel_dir) s.velocity).position +
              depenetrate length_unit config.toDepenetrationConfig
                (iterContacts scene shape_rotation config on_hit sweep_hit
                  (s.position + sweep_hit.distance • vel_dir) s.velocity).inters,
          velocity := 0,
          time_left := s.time_left - s.time_left * (sweep_hit.distance / distance) } := by
  intro n
  simp only [slideLoop, h1]
  rw [if_neg h2]
  simp only [h3, h4, Bool.false_eq_true, if_false]
  rw [if_pos h5]

/-- Witness for C6: against a floor hit at sweep distance `3` (safe
distance `2.99`), current velocity `(0, -10)` and original velocity
`(0, 1)`, the clipped velocity `(0, -10)` has dot product `-10 ≤
-DOT_EPSILON` with the original, so the loop stops with velocity zero. -/
theorem c6_anti_jitter_stops_witness :
    slideLoop floorScene nuDown10 0 1 MoveAndSlideConfig.default idOnHit
        ((0 : ℚ), (1 : ℚ)) (0 + 1)
        { position := (0, 0), velocity := (0, -10), time_left := 1 } =
      { position := ((0 : ℚ), (-299/100 : ℚ)), velocity := 0,
        time_left := (701/1000 : ℚ) } := by
  rw [c6_anti_jitter_stops floorScene nuDown10 0 1 MoveAndSlideConfig.default idOnHit
    ((0 : ℚ), (1 : ℚ)) { position := (0, 0), velocity := (0, -10), time_left := 1 }
    ((0 : ℚ), (-1 : ℚ)) 10
    { entity := 0, distance := 299/100, point1 := (0, 0), point2 := (0, 0)
      normal1 := (0, 1), normal2 := (0, -1), collision_distance := 10 }
    (by decide) (by decide) (by decide) (by decide) (by decide) 0]
  decide

/-- Helper: the checked normalisation always reports a result — the
division it performs is guarded by the zero-length test. -/
theorem dir2Checked_eq (ν : Vec2 → ℚ) (v : Vec2) :
    dir2Checked ν v = some (dir2_new_and_length ν v) := by
  by_cases h : ν v = 0 <;>
    simp [dir2Checked, dir2_new_and_length, qinvChecked, h]

/-- Helper: the checked `pull_back` always reports a result — its divisor
is at least `DOT_EPSILON > 0`. -/
theorem pullBackChecked_eq (hit : ShapeHitData) (dir : Vec2) (skin_width : ℚ) :
    pullBackChecked hit dir skin_width = some (pull_back hit dir skin_width) := by
  have hpos : (0 : ℚ) < max (Vec2.dot dir (-hit.normal1)) DOT_EPSILON :=
    lt_of_lt_of_le (by norm_num [DOT_EPSILON]) (le_max_right _ _)
  simp [pullBackChecked, qdivChecked, pull_back, hpos.ne']

/-- Helper: the checked `cast_move` always reports a result. -/
theorem castMoveChecked_eq (scene : Scene) (ν : Vec2 → ℚ) (shape_position : Vec2)
    (shape_rotation : ℚ) (movement : Vec2) (skin_width : ℚ) :
    castMoveChecked scene ν shape_position shape_rotation movement skin_width =
      some (cast_move scene ν shape_position shape_rotation movement skin_width) := by
  simp only [castMoveChecked, cast_move, dir2Checked_eq]
  cases hc : scene.castShape shape_position shape_rotation
      ((dir2_new_and_length ν movement).getD ((1, 0), 0)).1
      ((dir2_new_and_length ν movement).getD ((1, 0), 0)).2 with
  | none => rfl
  | some shape_hit =>
    by_cases h0 : ((dir2_new_and_length ν movement).getD ((1, 0), 0)).2 = 0
    · simp [h0]
    · simp [h0, pullBackChecked_eq]

/-- Helper: the checked slide loop always reports a result — the division
by the sweep length happens only after the `MIN_DISTANCE` test. -/
theorem slideLoopChecked_eq (scene : Scene) (ν : Vec2 → ℚ)
    (shape_rotation length_unit : ℚ) (config : MoveAndSlideConfig) (on_hit : OnHit)
    (original_velocity : Vec2) :
    ∀ (n : ℕ) (s : MoveState),
      slideLoopChecked scene ν shape_rotation length_unit config on_hit
          original_velocity n s =
        some (slideLoop scene ν shape_rotation length_unit config on_hit
          original_velocity n s) := by
  intro n
  induction n with
  | zero => intro s; rfl
  | succ k ih =>
    intro s
    cases hd : dir2_new_and_length ν (s.time_left • s.velocity) with
    | none => simp only [slideLoopChecked, slideLoop, dir2Checked_eq, hd]
    | some dl =>
      obtain ⟨vel_dir, distance⟩ := dl
      by_cases h2 : distance < MIN_DISTANCE
      · simp only [slideLoopChecked, slideLoop, dir2Checked_eq, hd, if_pos h2]
      · cases hc : cast_move scene ν s.position shape_rotation
            (s.time_left • s.velocity) config.skin_width with
        | none =>
          simp only [slideLoopChecked, slideLoop, dir2Checked_eq, hd, if_neg h2,
            castMoveChecked_eq, hc]
        | some sweep_hit =>
          have hdist : distance ≠ 0 := by
            intro h
            rw [h] at h2
            exact h2 (by norm_num [MIN_DISTANCE])
          by_cases h4 : sweep_hit.intersects = true
          · simp only [slideLoopChecked, slideLoop, dir2Checked_eq, hd, if_neg h2,
              castMoveChecked_eq, hc, h4, if_true]
          · by_cases h5 : Vec2.dot
                (project_velocity
                  (iterContacts scene shape_rotation config on_hit sweep_hit
                    (s.position + sweep_hit.distance • vel_dir) s.velocity).velocity
                  (iterContacts scene shape_rotation config on_hit sweep_hit
                    (s.position + sweep_hit.distance • vel_dir) s.velocity).planes)
                original_velocity ≤ -DOT_EPSILON
            · simp only [slideLoopChecked, slideLoop, dir2Checked_eq, hd, if_neg h2,
                castMoveChecked_eq, hc, h4, Bool.false_eq_true, if_false,
                qdivChecked, hdist, if_pos h5]
            · simp only [slideLoopChecked, slideLoop, dir2Checked_eq, hd, if_neg h2,
                castMoveChecked_eq, hc, h4, Bool.false_eq_true, if_false,
                qdivChecked, hdist, if_neg h5]
              exact ih _

/-- C9.  No operation of the core can fail: the checked variant of
`move_and_slide` — which reports `none` if any of the three divisions of
the source (normalisation, `pull_back`, the time fraction) were reached
with a zero divisor — always returns `some` of the plain result, for
every scene, norm oracle, input and configuration.  Every degenerate case
is resolved by the surrounding guards (`MIN_DISTANCE` early-out, the
`DOT_EPSILON` floor on the pull-back divisor, the zero-length check in
the normaliser), never by a failure. -/
theorem c9_total_no_failure (scene : Scene) (ν : Vec2 → ℚ) (length_unit : ℚ)
    (shape_position : Vec2) (shape_rotation : ℚ) (velocity : Vec2) (delta_time : ℚ)
    (config : MoveAndSlideConfig) (on_hit : OnHit) :
    moveAndSlideChecked scene ν length_unit shape_position shape_rotation velocity
        delta_time config on_hit =
      some (move_and_slide scene ν length_unit shape_position shape_rotation velocity
        delta_time config on_hit) := by
  simp only [moveAndSlideChecked, move_and_slide, slideLoopChecked_eq]
